import Mathlib

/-!
Shallow embedding of the pluvia client module (`__init__.py`): the token
lifecycle (find / validate / refresh / save inside `authenticate`), the
authenticated request layer (`request_info_from_api`, `request_file_from_api`)
and the identifier resolver (`get_id`, `fetch_ids`, `get_id_of_item`).

Modelling conventions:
* Side effects are made explicit: the process state (the token file at the
  default store path, and the module-level globals `access_token` and
  `login_data`) is a `St` record threaded through the functions, and every
  outbound network request and file write is recorded in an effect trace.
* The environment `Env` supplies what the outside world would answer: the
  current UTC instant and the server responses to the token POST and to GET
  requests.  Timestamps are modelled post-parse as integers (the code parses
  the `expires` field with a fixed strftime format into a UTC datetime and
  only ever compares it; the string-to-instant parse itself is out of scope).
* The token file content is modelled post-parse as `Option Token` (absent
  file = `none`); a malformed file raises in `json.loads` before any logic
  runs and no claim depends on it.
* Python `None`-or-value parameters are `Option`s, and Python truthiness of
  each optional parameter is modelled by an explicit `...Truthy` function.
* Exceptions are explicit: `Err` lists the exceptions the module can raise
  (HTTP-status errors from `raise_for_status`, `StopIteration` from `next`,
  `TypeError` from operating on `None`), plus `invalidArguments`, which names
  the spec's `InvalidArgumentsError` so that claims about it can be stated;
  the code itself never raises it.
* The store-path parameter of `authenticate` is always defaulted by the
  claims under study; the model therefore has a single store slot standing
  for the file at the default path.
-/

namespace Pluvia

/-- A parsed credential record: the two fields the module reads.  The code
keeps any further server-returned fields opaquely; they never influence
control flow, so they are not modelled. -/
structure Token where
  access_token : String
  expires : Int
deriving Repr, DecidableEq

/-- The JSON body sent to the token endpoint: either the dict built from
`_username` and `_password`, or an arbitrary payload forwarded verbatim. -/
inductive LoginData where
  | userPass (username : String) (password : String)
  | payload (fields : List (String × String))
deriving Repr, DecidableEq

/-- HTTP headers as an association list (a Python dict of strings). -/
abbrev Headers := List (String × String)

/-- One entry of a server-provided reference list. -/
structure RefEntry where
  id : String
  descricao : String
deriving Repr, DecidableEq

/-- The exceptions the module can raise, plus the spec-level
`invalidArguments` (never produced by the code, present so claims about it
can be stated).  `httpError` is what `raise_for_status` raises, carrying the
response status. -/
inductive Err where
  | httpError (status : Nat)
  | invalidArguments
  | notFound
  | typeError
deriving Repr, DecidableEq

/-- Observable side effects: network requests and file writes. -/
inductive Eff where
  | post (endpoint : String) (headers : Headers) (body : Option LoginData)
      (verify : Bool)
  | get (endpoint : String) (headers : Headers) (verify : Bool)
  | writeToken (token : Token)
  | writeData (filename : String)
deriving Repr, DecidableEq

/-- Whether an effect is a network call. -/
def Eff.isNetwork : Eff → Bool
  | .post _ _ _ _ => true
  | .get _ _ _ => true
  | .writeToken _ => false
  | .writeData _ => false

/-- Whether an effect is a GET request. -/
def Eff.isGet : Eff → Bool
  | .get _ _ _ => true
  | _ => false

/-- Whether an effect writes the token file. -/
def Eff.isTokenWrite : Eff → Bool
  | .writeToken _ => true
  | _ => false

/-- What the outside world answers: the current UTC instant, the server
response (status, parsed body) to `POST /v2/token`, and the server response
to a GET request. -/
structure Env where
  now : Int
  tokenResp : Nat × Token
  getResp : Nat × List RefEntry
deriving Repr, DecidableEq

/-- Process state: the token file at the default store path (post-parse,
`none` = absent) and the module globals `access_token` and `login_data`. -/
structure St where
  file : Option Token
  access_token : Option String
  login_data : Option LoginData
deriving Repr, DecidableEq

/-- Python truthiness of an optional string: `None` and `""` are falsy. -/
def strTruthy : Option String → Bool
  | none => false
  | some s => !s.isEmpty

/-- Python truthiness of an optional dict: `None` and `{}` are falsy. -/
def dataTruthy : Option LoginData → Bool
  | none => false
  | some (.userPass _ _) => true
  | some (.payload fs) => !fs.isEmpty

/-- Python truthiness of an optional bool: `None` and `False` are falsy. -/
def boolTruthy : Option Bool → Bool
  | none => false
  | some b => b

/-- `raise_for_status` raises exactly for statuses in [400, 600). -/
def errStatus (status : Nat) : Bool := 400 ≤ status && status < 600

/-- The `_data` build step of `authenticate`:
`if not _data and _username and _password: _data = {...}`. -/
def buildData (username password : Option String) (data0 : Option LoginData) :
    Option LoginData :=
  if !dataTruthy data0 && strTruthy username && strTruthy password then
    some (.userPass (username.getD "") (password.getD ""))
  else data0

/-- The default headers `authenticate` uses when none are supplied. -/
def defaultAuthHeaders : Headers :=
  [("content-type", "application/json"), ("accept", "*/*")]

/-- The headers normalization of `authenticate`:
`if not headers: headers = {...}` (a `None` or empty dict is replaced). -/
def normHeaders (headers0 : Option Headers) : Headers :=
  match headers0 with
  | none => defaultAuthHeaders
  | some h => if h.isEmpty then defaultAuthHeaders else h

/-- The verify normalization: `if not verify: verify = True`. -/
def normVerify (verify0 : Option Bool) : Bool :=
  if boolTruthy verify0 then boolTruthy verify0 else true

/-- Inner `is_valid_token`: `None` (or an empty dict) is invalid; otherwise
the parsed `expires` instant must be strictly later than the current UTC
instant (`dt_to_expire > dt_now`). -/
def is_valid_token (token : Option Token) (now : Int) : Bool :=
  match token with
  | some t => decide (t.expires > now)
  | none => false

/-- Inner `refresh_token`: POST `login_data` to `/v2/token`, raise via
`raise_for_status` on an error status, else return the parsed body
verbatim. -/
def refresh_token (data : Option LoginData) (headers : Headers)
    (verify : Bool) (env : Env) : Except Err Token × List Eff :=
  let eff := Eff.post "/v2/token" headers data verify
  if errStatus env.tokenResp.1 then
    (Except.error (Err.httpError env.tokenResp.1), [eff])
  else
    (Except.ok env.tokenResp.2, [eff])

/-- Result of a call of `authenticate`: the raised exception if any, the
Python return value, the state at completion (or at the raise point), and
the effects performed.  `ret` models the value of the Python call
expression; the function body of `authenticate` contains no return
statement, so a completed call evaluates to `None`. -/
structure AuthResult where
  err : Option Err
  ret : Option String
  st : St
  trace : List Eff
deriving Repr, DecidableEq

/-- `authenticate`: build `_data` from the credentials if absent, normalize
headers / verify, read the token file (`find_token`), and if the cached
token is not valid, refresh it over the network and save it
(`save_token`); finally set the globals `access_token` and `login_data`.
There is no return statement: a completed call evaluates to `None`.
The body subscripts `token["access_token"]`, which on a `None` token would
raise `TypeError` (unreachable after a positive validity check). -/
def authenticate (username password : Option String) (data0 : Option LoginData)
    (headers0 : Option Headers) (verify0 : Option Bool)
    (env : Env) (st : St) : AuthResult :=
  let data := buildData username password data0
  let headers := normHeaders headers0
  let verify := normVerify verify0
  let token := st.file
  if is_valid_token token env.now then
    match token with
    | some t =>
        let st1 : St :=
          { st with access_token := some t.access_token, login_data := data }
        { err := none, ret := none, st := st1, trace := [] }
    | none =>
        { err := some Err.typeError, ret := none, st := st, trace := [] }
  else
    match refresh_token data headers verify env with
    | (Except.error e, tr) =>
        { err := some e, ret := none, st := st, trace := tr }
    | (Except.ok tok, tr) =>
        let st1 : St :=
          { file := some tok, access_token := some tok.access_token,
            login_data := data }
        { err := none, ret := none, st := st1,
          trace := tr ++ [Eff.writeToken tok] }

/-- The bearer headers the request layer builds from the global token. -/
def bearerOf (tok : String) : Headers :=
  [("Authorization", "Bearer " ++ tok), ("Content-Type", "application/json")]

/-- `"Bearer " + access_token` with the module global: concatenating with a
`None` token raises `TypeError`. -/
def mkBearer : Option String → Except Err Headers
  | some tok => Except.ok (bearerOf tok)
  | none => Except.error Err.typeError

/-- The headers step of both request functions: `if not headers:` replaces a
`None` or empty dict by the bearer headers built from the global token. -/
def chooseHeaders (headers0 : Option Headers) (tok : Option String) :
    Except Err Headers :=
  match headers0 with
  | none => mkBearer tok
  | some h => if h.isEmpty then mkBearer tok else Except.ok h

/-- Result of a call of one of the request functions. -/
structure ReqResult where
  err : Option Err
  ret : Option (List RefEntry)
  st : St
  trace : List Eff
deriving Repr, DecidableEq

/-- `request_info_from_api`: first `authenticate(_data = login_data)` with
the module global, then return `None` on an empty endpoint, else GET the
endpoint with the (defaulted) headers and normalized verify, raise on an
error status, else return the parsed JSON body. -/
def request_info_from_api (endpoint : Option String)
    (headers0 : Option Headers) (verify0 : Option Bool)
    (env : Env) (st : St) : ReqResult :=
  let a := authenticate none none st.login_data none none env st
  match a.err with
  | some e => { err := some e, ret := none, st := a.st, trace := a.trace }
  | none =>
    if !strTruthy endpoint then
      { err := none, ret := none, st := a.st, trace := a.trace }
    else
      match chooseHeaders headers0 a.st.access_token with
      | Except.error e =>
          { err := some e, ret := none, st := a.st, trace := a.trace }
      | Except.ok headers =>
        let verify := normVerify verify0
        let eff := Eff.get (endpoint.getD "") headers verify
        if errStatus env.getResp.1 then
          { err := some (Err.httpError env.getResp.1), ret := none,
            st := a.st, trace := a.trace ++ [eff] }
        else
          { err := none, ret := some env.getResp.2, st := a.st,
            trace := a.trace ++ [eff] }

/-- `request_file_from_api`: same shape as `request_info_from_api`, but the
GET call passes the literal `True` for verify (the normalized `verify`
variable is computed and then unused), the body is only written to disk when
`save_it` is truthy, and the function always returns `None`. -/
def request_file_from_api (endpoint : Option String)
    (headers0 : Option Headers) (verify0 : Option Bool)
    (save_it : Option Bool) (filename : Option String)
    (env : Env) (st : St) : ReqResult :=
  let a := authenticate none none st.login_data none none env st
  match a.err with
  | some e => { err := some e, ret := none, st := a.st, trace := a.trace }
  | none =>
    if !strTruthy endpoint then
      { err := none, ret := none, st := a.st, trace := a.trace }
    else
      match chooseHeaders headers0 a.st.access_token with
      | Except.error e =>
          { err := some e, ret := none, st := a.st, trace := a.trace }
      | Except.ok headers =>
        let _verify := normVerify verify0
        let eff := Eff.get (endpoint.getD "") headers true
        if errStatus env.getResp.1 then
          { err := some (Err.httpError env.getResp.1), ret := none,
            st := a.st, trace := a.trace ++ [eff] }
        else if boolTruthy save_it then
          { err := none, ret := none, st := a.st,
            trace := a.trace ++ [eff, Eff.writeData (filename.getD "")] }
        else
          { err := none, ret := none, st := a.st,
            trace := a.trace ++ [eff] }

/-- `get_id`: `next(i["id"] for i in list_dict if i["descricao"] == this_name)`
returns the id of the first entry whose `descricao` equals the name, and
raises `StopIteration` (the spec's `NotFoundError`) when the generator is
exhausted. -/
def get_id (this_name : String) : List RefEntry → Except Err String
  | [] => Except.error Err.notFound
  | i :: rest =>
      if i.descricao = this_name then Except.ok i.id
      else get_id this_name rest

/-- `fetch_ids`: `request_info_from_api(endpoint=endpoint)`. -/
def fetch_ids (endpoint : Option String) (env : Env) (st : St) : ReqResult :=
  request_info_from_api endpoint none none env st

/-- Result of a call of `get_id_of_item`. -/
instance : DecidableEq (Except Err String) := fun x y =>
  match x, y with
  | .error e1, .error e2 =>
      if h : e1 = e2 then isTrue (by rw [h]) else isFalse (by simp [h])
  | .ok a1, .ok a2 =>
      if h : a1 = a2 then isTrue (by rw [h]) else isFalse (by simp [h])
  | .error _, .ok _ => isFalse (by simp)
  | .ok _, .error _ => isFalse (by simp)

structure IdResult where
  res : Except Err String
  st : St
  trace : List Eff
deriving Repr, DecidableEq

/-- `get_id_of_item`: `get_id(item_name, fetch_ids(endpoint))`.  When the
fetch returns `None` (empty endpoint), iterating `None` in the generator
raises `TypeError`. -/
def get_id_of_item (item_name : String) (endpoint : Option String)
    (env : Env) (st : St) : IdResult :=
  let r := fetch_ids endpoint env st
  match r.err with
  | some e => { res := Except.error e, st := r.st, trace := r.trace }
  | none =>
    match r.ret with
    | some l => { res := get_id item_name l, st := r.st, trace := r.trace }
    | none => { res := Except.error Err.typeError, st := r.st,
                trace := r.trace }

/-- `get_id_of_mode`. -/
def get_id_of_mode (mode : String) (env : Env) (st : St) : IdResult :=
  get_id_of_item mode (some "/v2/valoresParametros/modos") env st

/-- `get_id_of_precipitation_source`. -/
def get_id_of_precipitation_source (precipitation_source : String)
    (env : Env) (st : St) : IdResult :=
  get_id_of_item precipitation_source (some "/v2/valoresParametros/mapas")
    env st

/-- `get_id_of_forecast_model`. -/
def get_id_of_forecast_model (forecast_model : String)
    (env : Env) (st : St) : IdResult :=
  get_id_of_item forecast_model (some "/v2/valoresParametros/modelos") env st

/-! Concrete sample values used by witnesses and counterexamples. -/

/-- A cached credential record that is still valid at instant 50. -/
def sampleValidToken : Token := { access_token := "cached-tok", expires := 100 }

/-- The fresh record a granting token server hands out. -/
def sampleFreshToken : Token := { access_token := "fresh-tok", expires := 200 }

/-- The reference list of the spec's resolver test. -/
def sampleRefList : List RefEntry :=
  [{ id := "1", descricao := "Diário" }, { id := "2", descricao := "Mensal" }]

/-- A world whose token server grants the exchange (HTTP 200). -/
def envGrant : Env :=
  { now := 50, tokenResp := (200, sampleFreshToken),
    getResp := (200, sampleRefList) }

/-- A world whose token server rejects the exchange with HTTP 401. -/
def envDeny : Env :=
  { now := 50, tokenResp := (401, sampleFreshToken),
    getResp := (200, sampleRefList) }

/-- Fresh process state: no token file, globals unset. -/
def stEmpty : St := { file := none, access_token := none, login_data := none }

/-- Process state holding a still-valid persisted record. -/
def stValid : St :=
  { file := some sampleValidToken, access_token := none, login_data := none }

/-! Helper lemmas shared by several claim proofs. -/

/-- The effect trace of `authenticate` is empty (valid cached token), a lone
token POST (refresh rejected), or a token POST followed by the token-file
write (refresh granted). -/
theorem authenticate_trace_cases (username password : Option String)
    (data0 : Option LoginData) (headers0 : Option Headers)
    (verify0 : Option Bool) (env : Env) (st : St) :
    (authenticate username password data0 headers0 verify0 env st).trace
      = [] ∨
    (authenticate username password data0 headers0 verify0 env st).trace
      = [Eff.post "/v2/token" (normHeaders headers0)
           (buildData username password data0) (normVerify verify0)] ∨
    (authenticate username password data0 headers0 verify0 env st).trace
      = [Eff.post "/v2/token" (normHeaders headers0)
           (buildData username password data0) (normVerify verify0),
         Eff.writeToken env.tokenResp.2] := by
  cases hf : st.file with
  | none =>
      cases hs : errStatus env.tokenResp.1 <;>
        simp [authenticate, refresh_token, is_valid_token, hf, hs]
  | some t =>
      by_cases hv : t.expires > env.now
      · simp [authenticate, is_valid_token, hf, hv]
      · cases hs : errStatus env.tokenResp.1 <;>
          simp [authenticate, refresh_token, is_valid_token, hf, hv, hs]

/-- No effect of `authenticate` is a GET request. -/
theorem authenticate_no_get (username password : Option String)
    (data0 : Option LoginData) (headers0 : Option Headers)
    (verify0 : Option Bool) (env : Env) (st : St) :
    ∀ e ∈ (authenticate username password data0 headers0 verify0 env st).trace,
      e.isGet = false := by
  rcases authenticate_trace_cases username password data0 headers0 verify0
    env st with h | h | h <;> rw [h] <;> simp [Eff.isGet]

/-- The verify normalization always yields `true`. -/
theorem normVerify_eq_true (verify0 : Option Bool) :
    normVerify verify0 = true := by
  cases verify0 with
  | none => rfl
  | some b => cases b <;> rfl

/-- With a valid cached token, `authenticate` completes with no error, an
empty effect trace, and the token file untouched. -/
theorem authenticate_valid_skip (username password : Option String)
    (data0 : Option LoginData) (headers0 : Option Headers)
    (verify0 : Option Bool) (env : Env) (st : St)
    (h : is_valid_token st.file env.now = true) :
    (authenticate username password data0 headers0 verify0 env st).err
      = none ∧
    (authenticate username password data0 headers0 verify0 env st).trace
      = [] ∧
    (authenticate username password data0 headers0 verify0 env st).st.file
      = st.file := by
  cases hf : st.file with
  | none => rw [hf] at h; simp [is_valid_token] at h
  | some t =>
      rw [hf] at h
      simp [authenticate, hf, h]

/-! Claim theorems. -/

/-- C4: for every credential record and current time, `is_valid_token` is
true exactly when the record is present and its expiry instant is strictly
later than the current instant; an absent record and a past-or-equal expiry
both give false. -/
theorem C4_is_valid_token_correct (token : Option Token) (now : Int) :
    is_valid_token token now = true ↔
      ∃ t, token = some t ∧ now < t.expires := by
  cases token with
  | none => simp [is_valid_token]
  | some t => simp [is_valid_token, gt_iff_lt]

/-- C1 (code bug): a call of `authenticate` with a valid cached record
completes without error and installs the access token in the module global,
yet the call itself evaluates to `None` — the function body has no return
statement, contradicting its own `-> str` annotation and docstring, and the
spec's contract that the access token string is returned. -/
theorem C1_authenticate_returns_none :
    (authenticate none none none none none envGrant stValid).err = none ∧
    (authenticate none none none none none envGrant stValid).st.access_token
      = some "cached-tok" ∧
    (authenticate none none none none none envGrant stValid).ret = none := by
  decide

/-- C5: when the persisted token record exists and is still valid,
`authenticate` completes without error, performs no network call and no
write at all (empty effect trace), and leaves the token file unchanged. -/
theorem C5_authenticate_idempotent_under_validity
    (username password : Option String) (data0 : Option LoginData)
    (headers0 : Option Headers) (verify0 : Option Bool) (env : Env) (st : St)
    (h : is_valid_token st.file env.now = true) :
    (authenticate username password data0 headers0 verify0 env st).err
      = none ∧
    (authenticate username password data0 headers0 verify0 env st).trace
      = [] ∧
    (authenticate username password data0 headers0 verify0 env st).st.file
      = st.file :=
  authenticate_valid_skip username password data0 headers0 verify0 env st h

/-- Witness for C5 at a concrete valid state. -/
theorem C5_witness :
    is_valid_token stValid.file envGrant.now = true ∧
    ((authenticate none none none none none envGrant stValid).err = none ∧
     (authenticate none none none none none envGrant stValid).trace = [] ∧
     (authenticate none none none none none envGrant stValid).st.file
       = stValid.file) :=
  ⟨by decide,
   C5_authenticate_idempotent_under_validity none none none none none
     envGrant stValid (by decide)⟩

/-- Process state holding an expired persisted record with matching
globals from an earlier successful authentication. -/
def stExpired : St :=
  { file := some { access_token := "old-tok", expires := 10 },
    access_token := some "old-tok", login_data := none }

/-- With an empty or unset endpoint, `request_info_from_api` reduces to the
re-authentication step: its error, state and trace are those of the inner
`authenticate` call and its return value is `None`. -/
theorem request_info_empty_endpoint_eq (endpoint : Option String)
    (headers0 : Option Headers) (verify0 : Option Bool) (env : Env) (st : St)
    (h : strTruthy endpoint = false) :
    request_info_from_api endpoint headers0 verify0 env st =
      { err := (authenticate none none st.login_data none none env st).err,
        ret := none,
        st := (authenticate none none st.login_data none none env st).st,
        trace :=
          (authenticate none none st.login_data none none env st).trace } := by
  unfold request_info_from_api
  cases he : (authenticate none none st.login_data none none env st).err <;>
    simp [he, h]

/-- C2 counterexample: with no cached token and no credentials supplied at
all, `authenticate` does not raise `InvalidArgumentsError`: it invokes the
refresher with a null body, and when the server grants the exchange the
call completes without any error. -/
theorem C2_counterexample :
    (authenticate none none none none none envGrant stEmpty).err = none ∧
    (authenticate none none none none none envGrant stEmpty).trace
      = [Eff.post "/v2/token" defaultAuthHeaders none true,
         Eff.writeToken sampleFreshToken] := by
  decide

/-- C2 (amended): a credential-less call of `authenticate` with a still
valid cached token succeeds with no network call; with an absent or invalid
cached token it still invokes the refresher — issuing the token POST with
whatever body the build step produced (null when no credentials are
available) — and the only possible failure is the HTTP-status error from
the server's answer, never an `InvalidArgumentsError`, which the code does
not raise anywhere. -/
theorem C2_no_invalid_arguments_error (username password : Option String)
    (data0 : Option LoginData) (env : Env) (st : St) :
    (is_valid_token st.file env.now = true →
       (authenticate username password data0 none none env st).err = none ∧
       (authenticate username password data0 none none env st).trace = []) ∧
    (is_valid_token st.file env.now = false →
       Eff.post "/v2/token" defaultAuthHeaders
           (buildData username password data0) true ∈
         (authenticate username password data0 none none env st).trace ∧
       (authenticate username password data0 none none env st).err
         ≠ some Err.invalidArguments ∧
       (errStatus env.tokenResp.1 = true →
          (authenticate username password data0 none none env st).err
            = some (Err.httpError env.tokenResp.1)) ∧
       (errStatus env.tokenResp.1 = false →
          (authenticate username password data0 none none env st).err
            = none)) := by
  constructor
  · intro hv
    have hskip :=
      authenticate_valid_skip username password data0 none none env st hv
    exact ⟨hskip.1, hskip.2.1⟩
  · intro hv
    cases hs : errStatus env.tokenResp.1 <;>
      simp [authenticate, refresh_token, hv, hs, normHeaders, normVerify,
        boolTruthy]

/-- Witness for C2 (amended): a concrete credential-less call against a
rejecting server fails with the HTTP-status error of the response. -/
theorem C2_witness :
    is_valid_token stEmpty.file envDeny.now = false ∧
    errStatus envDeny.tokenResp.1 = true ∧
    (authenticate none none none none none envDeny stEmpty).err
      = some (Err.httpError envDeny.tokenResp.1) :=
  ⟨by decide, by decide,
   ((C2_no_invalid_arguments_error none none none envDeny stEmpty).2
       (by decide)).2.2.1 (by decide)⟩

/-- C3 counterexample: with an unset endpoint but an invalid cached
credential, `request_info_from_api` returns `None` yet performs a network
call: the re-authentication issues the token POST. -/
theorem C3_counterexample :
    (request_info_from_api none none none envGrant stEmpty).ret = none ∧
    (request_info_from_api none none none envGrant stEmpty).err = none ∧
    Eff.post "/v2/token" defaultAuthHeaders none true ∈
      (request_info_from_api none none none envGrant stEmpty).trace := by
  decide

/-- C3 (amended): with an empty or unset endpoint `request_info_from_api`
never issues a GET and, whenever it completes, returns `None`; but it
re-authenticates first, so the call is free of network activity only when
the cached credential is valid — an invalid cached credential makes the
re-authentication issue a token POST (and a refresh failure propagates
instead of returning `None`). -/
theorem C3_empty_endpoint (endpoint : Option String)
    (headers0 : Option Headers) (verify0 : Option Bool) (env : Env) (st : St)
    (h : strTruthy endpoint = false) :
    (∀ e ∈ (request_info_from_api endpoint headers0 verify0 env st).trace,
       e.isGet = false) ∧
    ((request_info_from_api endpoint headers0 verify0 env st).err = none →
       (request_info_from_api endpoint headers0 verify0 env st).ret = none) ∧
    (is_valid_token st.file env.now = true →
       (request_info_from_api endpoint headers0 verify0 env st).err = none ∧
       (request_info_from_api endpoint headers0 verify0 env st).trace = [] ∧
       (request_info_from_api endpoint headers0 verify0 env st).ret
         = none) := by
  rw [request_info_empty_endpoint_eq endpoint headers0 verify0 env st h]
  refine ⟨?_, ?_, ?_⟩
  · intro e he
    exact authenticate_no_get none none st.login_data none none env st e he
  · intro _
    rfl
  · intro hv
    have hskip :=
      authenticate_valid_skip none none st.login_data none none env st hv
    exact ⟨hskip.1, hskip.2.1, rfl⟩

/-- Witness for C3 (amended): with a valid cached credential and an unset
endpoint, the call completes with no effect at all and returns `None`. -/
theorem C3_witness :
    strTruthy none = false ∧
    is_valid_token stValid.file envGrant.now = true ∧
    ((request_info_from_api none none none envGrant stValid).err = none ∧
     (request_info_from_api none none none envGrant stValid).trace = [] ∧
     (request_info_from_api none none none envGrant stValid).ret = none) :=
  ⟨by decide, by decide,
   (C3_empty_endpoint none none none envGrant stValid (by decide)).2.2
     (by decide)⟩

/-- C6: when the cached token is not valid and the token server answers the
refresh POST with an error status, `authenticate` raises the
HTTP-status-derived error (the spec's `AuthenticationError` for the token
endpoint), the whole process state — token file and both module globals —
is left exactly as it was, and no token-file write is performed. -/
theorem C6_refresh_failure_preserves_state (username password : Option String)
    (data0 : Option LoginData) (headers0 : Option Headers)
    (verify0 : Option Bool) (env : Env) (st : St)
    (hinv : is_valid_token st.file env.now = false)
    (hstat : errStatus env.tokenResp.1 = true) :
    (authenticate username password data0 headers0 verify0 env st).err
      = some (Err.httpError env.tokenResp.1) ∧
    (authenticate username password data0 headers0 verify0 env st).st = st ∧
    ∀ e ∈ (authenticate username password data0 headers0 verify0 env st).trace,
      e.isTokenWrite = false := by
  simp [authenticate, refresh_token, hinv, hstat, Eff.isTokenWrite]

/-- Witness for C6: a 401 on the refresh POST with an expired persisted
record leaves the file and the globals untouched. -/
theorem C6_witness :
    is_valid_token stExpired.file envDeny.now = false ∧
    errStatus envDeny.tokenResp.1 = true ∧
    ((authenticate none none none none none envDeny stExpired).err
       = some (Err.httpError envDeny.tokenResp.1) ∧
     (authenticate none none none none none envDeny stExpired).st
       = stExpired ∧
     ∀ e ∈ (authenticate none none none none none envDeny stExpired).trace,
       e.isTokenWrite = false) :=
  ⟨by decide, by decide,
   C6_refresh_failure_preserves_state none none none none none envDeny
     stExpired (by decide) (by decide)⟩

/-- C7: a call of `authenticate` with `verify = False` yields a result
identical to the call without `verify`, and every token POST it issues
carries TLS verification enabled. -/
theorem C7_verify_false_overridden (username password : Option String)
    (data0 : Option LoginData) (headers0 : Option Headers)
    (env : Env) (st : St) :
    authenticate username password data0 headers0 (some false) env st
      = authenticate username password data0 headers0 none env st ∧
    ∀ ep hs b v, Eff.post ep hs b v ∈
        (authenticate username password data0 headers0 (some false)
          env st).trace →
      v = true := by
  constructor
  · rfl
  · intro ep hs b v hmem
    rcases authenticate_trace_cases username password data0 headers0
        (some false) env st with hc | hc | hc <;>
      rw [hc] at hmem <;>
      simp [normVerify, boolTruthy] at hmem <;>
      tauto

/-- Witness for C7: the concrete refresh POST of a `verify = False` call is
in the trace and carries verify = true. -/
theorem C7_witness :
    Eff.post "/v2/token" defaultAuthHeaders none true ∈
      (authenticate none none none none (some false) envGrant stEmpty).trace ∧
    true = true :=
  ⟨by decide,
   (C7_verify_false_overridden none none none none envGrant stEmpty).2
     "/v2/token" defaultAuthHeaders none true (by decide)⟩

/-- Any GET issued by `request_info_from_api` carries the normalized verify
value and the headers chosen by the headers step. -/
theorem request_info_get_shape (endpoint : Option String)
    (headers0 : Option Headers) (verify0 : Option Bool) (env : Env) (st : St) :
    ∀ ep hs v, Eff.get ep hs v ∈
        (request_info_from_api endpoint headers0 verify0 env st).trace →
      v = normVerify verify0 ∧
      chooseHeaders headers0
          (authenticate none none st.login_data none none
            env st).st.access_token
        = Except.ok hs := by
  intro ep hs v hmem
  have hng := authenticate_no_get none none st.login_data none none env st
  unfold request_info_from_api at hmem
  simp only [] at hmem
  cases he : (authenticate none none st.login_data none none env st).err with
  | some e =>
      rw [he] at hmem
      simp only [List.mem_singleton] at hmem
      exact absurd (hng _ hmem) (by simp [Eff.isGet])
  | none =>
      rw [he] at hmem
      cases hep : strTruthy endpoint with
      | false =>
          simp only [hep, Bool.not_false, if_pos] at hmem
          exact absurd (hng _ hmem) (by simp [Eff.isGet])
      | true =>
          simp only [hep, Bool.not_true, Bool.false_eq_true, if_false] at hmem
          cases hch : chooseHeaders headers0
              (authenticate none none st.login_data none none
                env st).st.access_token with
          | error e =>
              rw [hch] at hmem
              exact absurd (hng _ hmem) (by simp [Eff.isGet])
          | ok hs1 =>
              rw [hch] at hmem
              cases hst : errStatus env.getResp.1 <;>
                simp [hst] at hmem <;>
                rcases hmem with hmem | ⟨hep2, hhs, hv2⟩
              · exact absurd (hng _ hmem) (by simp [Eff.isGet])
              · subst hhs hv2; exact ⟨rfl, rfl⟩
              · exact absurd (hng _ hmem) (by simp [Eff.isGet])
              · subst hhs hv2; exact ⟨rfl, rfl⟩

/-- Any GET issued by `request_file_from_api` carries the literal `true`
for verify and the headers chosen by the headers step. -/
theorem request_file_get_shape (endpoint : Option String)
    (headers0 : Option Headers) (verify0 save_it : Option Bool)
    (filename : Option String) (env : Env) (st : St) :
    ∀ ep hs v, Eff.get ep hs v ∈
        (request_file_from_api endpoint headers0 verify0 save_it filename
          env st).trace →
      v = true ∧
      chooseHeaders headers0
          (authenticate none none st.login_data none none
            env st).st.access_token
        = Except.ok hs := by
  intro ep hs v hmem
  have hng := authenticate_no_get none none st.login_data none none env st
  unfold request_file_from_api at hmem
  simp only [] at hmem
  cases he : (authenticate none none st.login_data none none env st).err with
  | some e =>
      rw [he] at hmem
      simp only [List.mem_singleton] at hmem
      exact absurd (hng _ hmem) (by simp [Eff.isGet])
  | none =>
      rw [he] at hmem
      cases hep : strTruthy endpoint with
      | false =>
          simp only [hep, Bool.not_false, if_pos] at hmem
          exact absurd (hng _ hmem) (by simp [Eff.isGet])
      | true =>
          simp only [hep, Bool.not_true, Bool.false_eq_true, if_false] at hmem
          cases hch : chooseHeaders headers0
              (authenticate none none st.login_data none none
                env st).st.access_token with
          | error e =>
              rw [hch] at hmem
              exact absurd (hng _ hmem) (by simp [Eff.isGet])
          | ok hs1 =>
              rw [hch] at hmem
              cases hst : errStatus env.getResp.1 with
              | true =>
                  simp [hst] at hmem
                  rcases hmem with hmem | ⟨hep2, hhs, hv2⟩
                  · exact absurd (hng _ hmem) (by simp [Eff.isGet])
                  · subst hhs hv2; exact ⟨rfl, rfl⟩
              | false =>
                  cases hsv : boolTruthy save_it <;>
                    simp [hst, hsv] at hmem <;>
                    rcases hmem with hmem | ⟨hep2, hhs, hv2⟩
                  · exact absurd (hng _ hmem) (by simp [Eff.isGet])
                  · subst hhs hv2; exact ⟨rfl, rfl⟩
                  · exact absurd (hng _ hmem) (by simp [Eff.isGet])
                  · subst hhs hv2; exact ⟨rfl, rfl⟩

/-- `get_id` skips a prefix of non-matching entries and returns the id of
the first matching entry. -/
theorem get_id_append (name : String) (pre : List RefEntry) (e : RefEntry)
    (post : List RefEntry) (hpre : ∀ x ∈ pre, x.descricao ≠ name)
    (he : e.descricao = name) :
    get_id name (pre ++ e :: post) = Except.ok e.id := by
  induction pre with
  | nil => simp [get_id, he]
  | cons x rest ih =>
      have hx : x.descricao ≠ name := hpre x (by simp)
      simp only [List.cons_append, get_id, if_neg hx]
      exact ih fun y hy => hpre y (List.mem_cons_of_mem x hy)

/-- `get_id` raises the not-found error exactly when no entry matches. -/
theorem get_id_notFound_iff (name : String) (l : List RefEntry) :
    get_id name l = Except.error Err.notFound ↔
      ∀ e ∈ l, e.descricao ≠ name := by
  induction l with
  | nil => simp [get_id]
  | cons x rest ih =>
      by_cases hx : x.descricao = name
      · simp [get_id, hx]
      · simp [get_id, hx, ih]

/-- On the plain success path — valid cached token, non-empty endpoint,
success GET status — `get_id_of_item` resolves the name against the list
the server returned. -/
theorem get_id_of_item_fetches (name ep : String) (env : Env) (st : St)
    (hep : strTruthy (some ep) = true)
    (hv : is_valid_token st.file env.now = true)
    (hs : errStatus env.getResp.1 = false) :
    (get_id_of_item name (some ep) env st).res
      = get_id name env.getResp.2 := by
  cases hf : st.file with
  | none => rw [hf] at hv; simp [is_valid_token] at hv
  | some t =>
      rw [hf] at hv
      simp [get_id_of_item, fetch_ids, request_info_from_api, authenticate,
        buildData, hf, hv, hep, hs, chooseHeaders, mkBearer]

/-- C8: `get_id` returns the id of the first entry in list order whose
`descricao` field equals the name; it raises the not-found error exactly
when no entry of the list matches; and `get_id_of_item` applies it to the
reference list fetched from the endpoint. -/
theorem C8_resolver_first_match (name : String) (l : List RefEntry) :
    (get_id name l = Except.error Err.notFound ↔
       ∀ e ∈ l, e.descricao ≠ name) ∧
    (∀ pre e post, l = pre ++ e :: post →
       (∀ x ∈ pre, x.descricao ≠ name) → e.descricao = name →
       get_id name l = Except.ok e.id) ∧
    (∀ ep env st, strTruthy (some ep) = true →
       is_valid_token st.file env.now = true →
       errStatus env.getResp.1 = false →
       (get_id_of_item name (some ep) env st).res
         = get_id name env.getResp.2) := by
  refine ⟨get_id_notFound_iff name l, ?_, ?_⟩
  · intro pre e post hl hpre he
    rw [hl]
    exact get_id_append name pre e post hpre he
  · intro ep env st hep hv hs
    exact get_id_of_item_fetches name ep env st hep hv hs

/-- Witness for C8: the spec's resolver test — Diário resolves to id 1 as
the first match, Weekly exhausts the list and raises not-found, and the
end-to-end resolver agrees on the fetched list. -/
theorem C8_witness :
    get_id "Diário" sampleRefList = Except.ok "1" ∧
    get_id "Weekly" sampleRefList = Except.error Err.notFound ∧
    (get_id_of_item "Diário" (some "/v2/valoresParametros/modos") envGrant
       stValid).res = get_id "Diário" envGrant.getResp.2 :=
  ⟨(C8_resolver_first_match "Diário" sampleRefList).2.1 []
     { id := "1", descricao := "Diário" }
     [{ id := "2", descricao := "Mensal" }] rfl (by simp) rfl,
   (C8_resolver_first_match "Weekly" sampleRefList).1.mpr (by decide),
   (C8_resolver_first_match "Diário" sampleRefList).2.2
     "/v2/valoresParametros/modos" envGrant stValid (by decide) (by decide)
     (by decide)⟩

/-- C9: the result of `request_file_from_api` does not depend on its
`verify` argument at all, every GET it issues carries the literal `true`
for TLS verification, and every GET issued by `request_info_from_api`
carries the normalized verify value instead. -/
theorem C9_file_get_verify_literal_true (endpoint : Option String)
    (headers0 : Option Headers) (verify0 v0 : Option Bool)
    (save_it : Option Bool) (filename : Option String) (env : Env) (st : St) :
    request_file_from_api endpoint headers0 verify0 save_it filename env st
      = request_file_from_api endpoint headers0 v0 save_it filename env st ∧
    (∀ ep hs v, Eff.get ep hs v ∈
        (request_file_from_api endpoint headers0 verify0 save_it filename
          env st).trace → v = true) ∧
    (∀ ep hs v, Eff.get ep hs v ∈
        (request_info_from_api endpoint headers0 verify0 env st).trace →
      v = normVerify verify0) := by
  refine ⟨rfl, ?_, ?_⟩
  · intro ep hs v h
    exact (request_file_get_shape endpoint headers0 verify0 save_it filename
      env st ep hs v h).1
  · intro ep hs v h
    exact (request_info_get_shape endpoint headers0 verify0 env st
      ep hs v h).1

/-- Witness for C9: a concrete file GET carries verify = true even though
the caller passed `verify = False`, and the corresponding info GET carries
the normalized value of that same argument. -/
theorem C9_witness :
    (Eff.get "/v2/valoresParametros/modos" (bearerOf "cached-tok") true ∈
       (request_file_from_api (some "/v2/valoresParametros/modos") none
         (some false) none none envGrant stValid).trace) ∧
    (Eff.get "/v2/valoresParametros/modos" (bearerOf "cached-tok") true ∈
       (request_info_from_api (some "/v2/valoresParametros/modos") none
         (some false) envGrant stValid).trace) ∧
    true = true ∧ true = normVerify (some false) :=
  ⟨by decide, by decide,
   (C9_file_get_verify_literal_true (some "/v2/valoresParametros/modos")
       none (some false) none none none envGrant stValid).2.1
     "/v2/valoresParametros/modos" (bearerOf "cached-tok") true (by decide),
   (C9_file_get_verify_literal_true (some "/v2/valoresParametros/modos")
       none (some false) none none none envGrant stValid).2.2
     "/v2/valoresParametros/modos" (bearerOf "cached-tok") true (by decide)⟩

/-- C10: when the caller supplies a non-empty headers dict, every GET
issued by either request function carries exactly those headers — no
bearer header is added; when headers is unset or an empty dict, the GET
carries the bearer headers built from the process access token. -/
theorem C10_caller_headers_verbatim (endpoint : Option String)
    (verify0 save_it : Option Bool) (filename : Option String)
    (env : Env) (st : St) (h : Headers) (hne : h.isEmpty = false) :
    (∀ ep hs v, Eff.get ep hs v ∈
        (request_info_from_api endpoint (some h) verify0 env st).trace →
      hs = h) ∧
    (∀ ep hs v, Eff.get ep hs v ∈
        (request_file_from_api endpoint (some h) verify0 save_it filename
          env st).trace → hs = h) ∧
    (∀ headers0 : Option Headers, headers0 = none ∨ headers0 = some [] →
      ∀ ep hs v, Eff.get ep hs v ∈
          (request_info_from_api endpoint headers0 verify0 env st).trace →
        ∃ tok,
          (authenticate none none st.login_data none none
            env st).st.access_token = some tok ∧ hs = bearerOf tok) := by
  refine ⟨?_, ?_, ?_⟩
  · intro ep hs v hm
    have hch := (request_info_get_shape endpoint (some h) verify0 env st
      ep hs v hm).2
    simp [chooseHeaders, hne] at hch
    exact hch.symm
  · intro ep hs v hm
    have hch := (request_file_get_shape endpoint (some h) verify0 save_it
      filename env st ep hs v hm).2
    simp [chooseHeaders, hne] at hch
    exact hch.symm
  · intro headers0 h0 ep hs v hm
    have hch := (request_info_get_shape endpoint headers0 verify0 env st
      ep hs v hm).2
    cases ht : (authenticate none none st.login_data none none
        env st).st.access_token with
    | none =>
        rcases h0 with h0 | h0 <;> subst h0 <;>
          simp [chooseHeaders, mkBearer, ht] at hch
    | some tok =>
        rcases h0 with h0 | h0 <;> subst h0 <;>
          simp [chooseHeaders, mkBearer, ht] at hch <;>
          exact ⟨tok, rfl, hch.symm⟩

/-- Witness for C10: a caller-supplied custom header is sent verbatim by
both request functions, and the defaulted call sends the bearer headers of
the installed token. -/
theorem C10_witness :
    (([("X-Custom", "1")] : Headers).isEmpty = false) ∧
    (Eff.get "/e" [("X-Custom", "1")] true ∈
       (request_info_from_api (some "/e") (some [("X-Custom", "1")]) none
         envGrant stValid).trace) ∧
    (Eff.get "/e" [("X-Custom", "1")] true ∈
       (request_file_from_api (some "/e") (some [("X-Custom", "1")]) none
         none none envGrant stValid).trace) ∧
    ([("X-Custom", "1")] : Headers) = [("X-Custom", "1")] ∧
    ([("X-Custom", "1")] : Headers) = [("X-Custom", "1")] ∧
    (∃ tok,
       (authenticate none none stValid.login_data none none
         envGrant stValid).st.access_token = some tok ∧
       bearerOf "cached-tok" = bearerOf tok) :=
  ⟨by decide, by decide, by decide,
   (C10_caller_headers_verbatim (some "/e") none none none envGrant stValid
       [("X-Custom", "1")] (by decide)).1 "/e" [("X-Custom", "1")] true
     (by decide),
   (C10_caller_headers_verbatim (some "/e") none none none envGrant stValid
       [("X-Custom", "1")] (by decide)).2.1 "/e" [("X-Custom", "1")] true
     (by decide),
   (C10_caller_headers_verbatim (some "/e") none none none envGrant stValid
       [("X-Custom", "1")] (by decide)).2.2 none (Or.inl rfl) "/e"
     (bearerOf "cached-tok") true (by decide)⟩

end Pluvia
